import Mathlib

/-!
Shallow embedding of the authentication backend
(`src/auth-system/backend/src/controllers/authController.js`) of the
`exemplo-arch-ai` repository.

The Express routes are modelled as pure functions from a database state
`Db` and the request data to a pair of the updated state and the HTTP
response.  SQL tables become lists of rows (`rows[0]` of a query is
`List.find?` over the list in insertion order); `NOW()` becomes an
explicit `now : Nat` parameter (seconds); `Math.random()`-derived values
(the 6-digit MFA code) and `uuidv4()` (the reset token) become explicit
oracle parameters of the operation, so every behaviour the runtime can
exhibit is a choice of those parameters.

JWTs (`jwt.sign(payload, secret, { expiresIn })`) are modelled as the
data that determines the signed string: the payload, the signing secret
and the signing time (`iat`, which `jsonwebtoken` embeds in the token)
plus the expiry duration.  Two tokens are equal exactly when all these
components are equal; in particular tokens signed at different times are
distinct strings.

The `express-rate-limit` middleware in front of `/login` is a per-client
IP throttle orthogonal to every claim below; we model requests that pass
it.  `db.query` exceptions (loss of the database connection, mapped to
500 by every route) are infrastructure faults outside the embedding: the
store itself is total.
-/

namespace AuthSystem

/-- Payload of a signed JWT as built by `generateTokens`:
the access token carries `{ userId, username, email }`, the refresh
token carries `{ userId }`. -/
inductive JwtPayload where
  | access (userId : Nat) (username : String) (email : String)
  | refreshClaims (userId : Nat)
deriving DecidableEq

/-- A signed JWT, identified by the data that determines the signed
string: payload, signing secret, signing time (`iat`) and expiry
duration (`expiresIn`, in seconds). -/
structure Token where
  payload : JwtPayload
  secret : String
  iat : Nat
  expiresInSecs : Nat
deriving DecidableEq

/-- Server environment: the two signing secrets (`process.env.JWT_SECRET`
and `process.env.JWT_REFRESH_SECRET`) and `process.env.FRONTEND_URL`. -/
structure Env where
  jwtSecret : String
  jwtRefreshSecret : String
  frontendUrl : String
deriving DecidableEq

/-- A row of the `users` table. -/
structure UserRow where
  id : Nat
  username : String
  email : String
  password_hash : String
  is_active : Bool
  mfa_enabled : Bool
deriving DecidableEq

/-- A row of the `auth_tokens` table. -/
structure AuthTokenRow where
  user_id : Nat
  token : Token
  refresh_token : Token
  expires_at : Nat
  revoked : Bool
deriving DecidableEq

/-- A row of the `login_attempts` table. -/
structure LoginAttemptRow where
  user_id : Nat
  success : Bool
  created_at : Nat
deriving DecidableEq

/-- A row of the `mfa_codes` table. -/
structure MfaCodeRow where
  user_id : Nat
  code : String
  expires_at : Nat
  used : Bool
deriving DecidableEq

/-- A row of the `password_reset_tokens` table. -/
structure ResetTokenRow where
  user_id : Nat
  token : String
  expires_at : Nat
deriving DecidableEq

/-- An e-mail handed to `sendEmail` of the e-mail service
(`recipient` is its `to` argument). -/
structure EmailMsg where
  recipient : String
  subject : String
  bodyText : String
deriving DecidableEq

/-- The backing store, plus the list of e-mails sent so far (the
observable effect of the notification sender). -/
structure Db where
  users : List UserRow
  authTokens : List AuthTokenRow
  loginAttempts : List LoginAttemptRow
  mfaCodes : List MfaCodeRow
  resetTokens : List ResetTokenRow
  sentEmails : List EmailMsg
deriving DecidableEq

/-- JSON bodies the routes can answer with. -/
inductive RespBody where
  | err (msg : String)
  | tokens (token : Token) (refresh_token : Token)
  | requireMfa (message : String)
  | ok (message : String)
deriving DecidableEq

/-- An HTTP response: status code and JSON body. -/
structure Response where
  status : Nat
  body : RespBody
deriving DecidableEq

/-- The `.trim()` sanitizer of express-validator: strip leading and
trailing whitespace.  Written structurally over the character list so
that concrete instances evaluate inside the kernel. -/
def jsTrim (s : String) : String :=
  ⟨((s.data.dropWhile Char.isWhitespace).reverse.dropWhile
      Char.isWhitespace).reverse⟩

/-- `bcrypt.compare(password, hash)`: the stored hash validates exactly
the password it was derived from.  The hash function itself is
irrelevant to every claim, so it is abstracted as the identity: a user
row's `password_hash` field holds the (unique) password that
`bcryptCompare` accepts against it. -/
def bcryptCompare (password hash : String) : Bool :=
  password == hash

/-- The login lookup
`SELECT * FROM users WHERE username = $1 OR email = $1` (first row). -/
def findUserByUsernameOrEmail (s : Db) (q : String) : Option UserRow :=
  s.users.find? (fun u => u.username == q || u.email == q)

/-- `SELECT * FROM users WHERE id = $1` (first row). -/
def findUserById (s : Db) (uid : Nat) : Option UserRow :=
  s.users.find? (fun u => u.id == uid)

/-- `SELECT * FROM users WHERE id = $1 AND is_active = TRUE`
(first row), used by the refresh route. -/
def findActiveUserById (s : Db) (uid : Nat) : Option UserRow :=
  s.users.find? (fun u => u.id == uid && u.is_active)

/-- `recordFailedAttempt`:
`INSERT INTO login_attempts (user_id, success) VALUES ($1, FALSE)`. -/
def recordFailedAttempt (s : Db) (uid : Nat) (now : Nat) : Db :=
  { s with loginAttempts := s.loginAttempts ++ [⟨uid, false, now⟩] }

/-- The count in `checkUserBlocked`:
`SELECT COUNT(*) FROM login_attempts WHERE user_id = $1 AND
success = FALSE AND created_at > NOW() - INTERVAL '30 minutes'`.
`Nat` subtraction truncates at zero, which only widens the window to
the beginning of time when `now < 1800` — same as the SQL on a clock
that starts at the epoch. -/
def failedAttemptsInWindow (s : Db) (uid : Nat) (now : Nat) : Nat :=
  (s.loginAttempts.filter (fun a =>
    a.user_id == uid && a.success == false
      && decide (now - 30 * 60 < a.created_at))).length

/-- `checkUserBlocked`: at least 5 failed attempts in the trailing
30 minutes. -/
def checkUserBlocked (s : Db) (uid : Nat) (now : Nat) : Bool :=
  decide (5 ≤ failedAttemptsInWindow s uid now)

/-- `checkMfaEnabled`: `SELECT mfa_enabled FROM users WHERE id = $1`,
reading `rows[0].mfa_enabled`. -/
def checkMfaEnabled (s : Db) (uid : Nat) : Bool :=
  ((findUserById s uid).map (·.mfa_enabled)).getD false

/-- `generateTokens`: a 1-hour access JWT with claims
`{ userId, username, email }` signed with `JWT_SECRET`, and a 7-day
refresh JWT with claim `{ userId }` signed with `JWT_REFRESH_SECRET`,
both signed at the current time. -/
def generateTokens (env : Env) (user : UserRow) (now : Nat) :
    Token × Token :=
  (⟨.access user.id user.username user.email, env.jwtSecret, now, 3600⟩,
   ⟨.refreshClaims user.id, env.jwtRefreshSecret, now, 7 * 24 * 3600⟩)

/-- `storeTokens`: `INSERT INTO auth_tokens (user_id, token,
refresh_token, expires_at)` with a 7-day server-side expiry;
`revoked` defaults to `FALSE`. -/
def storeTokens (s : Db) (uid : Nat) (tokens : Token × Token)
    (now : Nat) : Db :=
  { s with authTokens :=
      s.authTokens ++ [⟨uid, tokens.1, tokens.2, now + 7 * 24 * 3600, false⟩] }

/-- `generateMfaCode`:
`Math.floor(100000 + Math.random() * 900000).toString()`.
`Math.random()` is the oracle `rand`; the produced values range over
exactly the same set `100000..999999`. -/
def generateMfaCode (rand : Nat) : String :=
  toString (100000 + rand % 900000)

/-- `storeMfaCode`: `INSERT INTO mfa_codes (user_id, code, expires_at)`
with a 10-minute expiry; `used` defaults to `FALSE`. -/
def storeMfaCode (s : Db) (uid : Nat) (code : String) (now : Nat) : Db :=
  { s with mfaCodes := s.mfaCodes ++ [⟨uid, code, now + 10 * 60, false⟩] }

/-- `sendEmail(to, subject, text)` of the e-mail service: the sent
message is appended to the observable outbox. -/
def sendEmail (s : Db) (recipient subject bodyText : String) : Db :=
  { s with sentEmails := s.sentEmails ++ [⟨recipient, subject, bodyText⟩] }

/-- `sendMfaCode(email, code)`. -/
def sendMfaCode (s : Db) (email code : String) : Db :=
  sendEmail s email "Código de Verificação"
    ("Seu código de verificação é: " ++ code ++ ". Válido por 10 minutos.")

/-- `verifyMfaCode(code)`: `SELECT * FROM mfa_codes WHERE code = $1 AND
used = FALSE AND expires_at > NOW()`; returns the owning user of the
first row, or `none` when no row matches (`{ valid: false }`). -/
def verifyMfaCode (s : Db) (code : String) (now : Nat) : Option Nat :=
  (s.mfaCodes.find? (fun r =>
    r.code == code && r.used == false && decide (now < r.expires_at))).map
    (·.user_id)

/-- `markMfaCodeAsUsed(code)`:
`UPDATE mfa_codes SET used = TRUE WHERE code = $1` — keyed by the code
value alone. -/
def markMfaCodeAsUsed (s : Db) (code : String) : Db :=
  { s with mfaCodes := s.mfaCodes.map (fun r =>
      if r.code == code then { r with used := true } else r) }

/-- The body of the password-reset e-mail, built around
`FRONTEND_URL/reset-password?token=...`. -/
def resetEmailBody (env : Env) (tok : String) : String :=
  "Clique no link abaixo para redefinir sua senha: " ++ env.frontendUrl
    ++ "/reset-password?token=" ++ tok

/-- `body('email').isEmail()` of express-validator, simplified to a
computable stand-in (every claim conditions only on the validator
passing, never on its exact boundary): the string has a `@` that is
neither first nor last. -/
def isEmail (s : String) : Bool :=
  s.data.contains '@' && !(s.data.head? == some '@')
    && !(s.data.getLast? == some '@')

/-- `POST /api/auth/login`.  The two express-validator sanitizers trim
`username` and `password` in place before the handler runs; the first
failing `notEmpty()` check (in declaration order) makes the 400
message. -/
def loginHandler (env : Env) (s : Db) (username password : String)
    (mfaRand : Nat) (now : Nat) : Db × Response :=
  let u := jsTrim username
  let p := jsTrim password
  if u == "" then (s, ⟨400, .err "Usuário ou e-mail é obrigatório"⟩)
  else if p == "" then (s, ⟨400, .err "Senha é obrigatória"⟩)
  else
    match findUserByUsernameOrEmail s u with
    | none => (s, ⟨401, .err "Usuário ou senha inválidos"⟩)
    | some userData =>
      if !userData.is_active then
        (s, ⟨401, .err "Conta desativada. Entre em contato com o suporte."⟩)
      else if !bcryptCompare p userData.password_hash then
        (recordFailedAttempt s userData.id now,
         ⟨401, .err "Usuário ou senha inválidos"⟩)
      else if checkUserBlocked s userData.id now then
        (s, ⟨401, .err "Conta bloqueada. Tente novamente em 30 minutos."⟩)
      else if checkMfaEnabled s userData.id then
        let code := generateMfaCode mfaRand
        (sendMfaCode (storeMfaCode s userData.id code now) userData.email code,
         ⟨200, .requireMfa "Código de verificação enviado"⟩)
      else
        let tokens := generateTokens env userData now
        (storeTokens s userData.id tokens now,
         ⟨200, .tokens tokens.1 tokens.2⟩)

/-- `POST /api/auth/mfa/verify`.  A missing or empty `code` is falsy in
`if (!code)`. -/
def verifyMfaHandler (env : Env) (s : Db) (code : String) (now : Nat) :
    Db × Response :=
  if code == "" then
    (s, ⟨400, .err "Código de verificação é obrigatório"⟩)
  else
    match verifyMfaCode s code now with
    | none => (s, ⟨401, .err "Código inválido ou expirado"⟩)
    | some uid =>
      match findUserById s uid with
      | none => (s, ⟨404, .err "Usuário não encontrado"⟩)
      | some userData =>
        let tokens := generateTokens env userData now
        (markMfaCodeAsUsed (storeTokens s userData.id tokens now) code,
         ⟨200, .tokens tokens.1 tokens.2⟩)

/-- `POST /api/auth/password/reset-request`. -/
def resetRequestHandler (env : Env) (s : Db) (email : String)
    (resetTok : String) (now : Nat) : Db × Response :=
  if !(isEmail email) then (s, ⟨400, .err "E-mail inválido"⟩)
  else
    match s.users.find? (fun u => u.email == email) with
    | none =>
      (s, ⟨200, .ok "Se o e-mail estiver cadastrado, você receberá instruções para redefinir sua senha."⟩)
    | some userData =>
      let s1 := { s with resetTokens :=
        s.resetTokens ++ [⟨userData.id, resetTok, now + 3600⟩] }
      (sendEmail s1 email "Redefinição de senha" (resetEmailBody env resetTok),
       ⟨200, .ok "Se o e-mail estiver cadastrado, você receberá instruções para redefinir sua senha."⟩)

/-- `POST /api/auth/logout`.  `header` is the parsed
`Authorization: Bearer <token>` header (`none` when absent or not of
Bearer shape); the route flips `revoked` on every `auth_tokens` row
whose access-token column matches and reports success regardless of
whether any row matched. -/
def logoutHandler (s : Db) (bearer : Option Token) : Db × Response :=
  match bearer with
  | none => (s, ⟨401, .err "Token não fornecido"⟩)
  | some tok =>
    ({ s with authTokens := s.authTokens.map (fun r =>
        if r.token == tok then { r with revoked := true } else r) },
     ⟨200, .ok "Logout realizado com sucesso"⟩)

/-- `POST /api/auth/refresh-token`. -/
def refreshHandler (env : Env) (s : Db) (rt : Option Token) (now : Nat) :
    Db × Response :=
  match rt with
  | none => (s, ⟨400, .err "Refresh token não fornecido"⟩)
  | some t =>
    match s.authTokens.find? (fun r =>
      r.refresh_token == t && r.revoked == false
        && decide (now < r.expires_at)) with
    | none => (s, ⟨401, .err "Refresh token inválido ou expirado"⟩)
    | some tokenData =>
      match findActiveUserById s tokenData.user_id with
      | none => (s, ⟨404, .err "Usuário não encontrado ou desativado"⟩)
      | some userData =>
        let s1 := { s with authTokens := s.authTokens.map (fun r =>
          if r.refresh_token == t then { r with revoked := true } else r) }
        let tokens := generateTokens env userData now
        (storeTokens s1 userData.id tokens now,
         ⟨200, .tokens tokens.1 tokens.2⟩)

/-- One request against the service.  Each operation carries the wall
clock time `NOW()` at which it runs and the oracle values the runtime
would draw (`Math.random()` for the MFA code, `uuidv4()` for the reset
token). -/
inductive Op where
  | login (username password : String) (mfaRand : Nat) (now : Nat)
  | verifyMfa (code : String) (now : Nat)
  | refresh (rt : Option Token) (now : Nat)
  | logout (bearer : Option Token) (now : Nat)
  | resetRequest (email : String) (resetTok : String) (now : Nat)
deriving DecidableEq

/-- The wall-clock time at which an operation runs. -/
def Op.time : Op → Nat
  | .login _ _ _ n => n
  | .verifyMfa _ n => n
  | .refresh _ n => n
  | .logout _ n => n
  | .resetRequest _ _ n => n

/-- Dispatch one request to its route handler. -/
def step (env : Env) (s : Db) : Op → Db × Response
  | .login u p r n => loginHandler env s u p r n
  | .verifyMfa c n => verifyMfaHandler env s c n
  | .refresh t n => refreshHandler env s t n
  | .logout b _ => logoutHandler s b
  | .resetRequest e tk n => resetRequestHandler env s e tk n

/-- Run a sequence of requests, threading the store. -/
def run (env : Env) (s : Db) : List Op → Db
  | [] => s
  | op :: ops => run env (step env s op).1 ops

/-- Revocation invariant of claim C1: every `auth_tokens` row whose
refresh-token column holds `t` is revoked. -/
def revokedAll (l : List AuthTokenRow) (t : Token) : Prop :=
  ∀ r ∈ l, r.refresh_token = t → r.revoked = true

/-- Consumption invariant of claim C2: every `mfa_codes` row whose code
column holds `c` is marked used. -/
def usedAll (l : List MfaCodeRow) (c : String) : Prop :=
  ∀ r ∈ l, r.code = c → r.used = true

/-- Does this operation issue an MFA code with value `c`?  Only a
`login` whose `Math.random()` draw produces `c` can. -/
def Op.mintsCode : Op → String → Bool
  | .login _ _ rand _, c => generateMfaCode rand == c
  | _, _ => false

/-! ### Concrete sample data used by the witnesses and the
counterexample -/

/-- A sample environment with distinct signing secrets. -/
def sampleEnv : Env := ⟨"access-secret", "refresh-secret", "http://front"⟩

/-- A sample active user without MFA. -/
def alice : UserRow := ⟨1, "alice", "alice@x.com", "pw1", true, false⟩

/-- A sample active user with MFA enabled. -/
def bob : UserRow := ⟨2, "bob", "bob@x.com", "pw2", true, true⟩

/-- A refresh token for `alice`, signed at time 0. -/
def tAlice : Token := ⟨.refreshClaims 1, "refresh-secret", 0, 604800⟩

/-- An access token for `alice`, signed at time 0. -/
def aAlice : Token := ⟨.access 1 "alice" "alice@x.com", "access-secret", 0, 3600⟩

/-- A store holding `alice` and her live token pair. -/
def dbAlice : Db := ⟨[alice], [⟨1, aAlice, tAlice, 1000, false⟩], [], [], [], []⟩

/-- A store holding `bob` and his pending MFA code "123456". -/
def dbBob : Db := ⟨[bob], [], [], [⟨2, "123456", 1000, false⟩], [], []⟩

/-- `dbBob` after `verifyMfa "123456"` consumed the code at time 10. -/
def dbBobAfterVerify : Db :=
  (step sampleEnv dbBob (.verifyMfa "123456" 10)).1

/-- `dbBobAfterVerify` after a `login` by bob at time 20 whose
`Math.random()` draw re-issues the colliding code value "123456". -/
def dbBobAfterLogin : Db :=
  (step sampleEnv dbBobAfterVerify (.login "bob" "pw2" 23456 20)).1

/-- A store holding `alice` with five recent failed login attempts. -/
def dbAliceBlocked : Db :=
  ⟨[alice], [],
   [⟨1, false, 1000⟩, ⟨1, false, 1001⟩, ⟨1, false, 1002⟩,
    ⟨1, false, 1003⟩, ⟨1, false, 1004⟩], [], [], []⟩

/-- A store with two users' pending MFA codes sharing the value
"111111" (user 2 and user 7), plus an unrelated code. -/
def dbSharedCodes : Db :=
  ⟨[bob], [], [],
   [⟨2, "111111", 1000, false⟩, ⟨7, "111111", 1000, false⟩,
    ⟨2, "222222", 1000, false⟩], [], []⟩

/-! ## State-projection lemmas -/

@[simp]
lemma recordFailedAttempt_authTokens (s : Db) (uid now : Nat) :
    (recordFailedAttempt s uid now).authTokens = s.authTokens := rfl

@[simp]
lemma storeMfaCode_authTokens (s : Db) (uid : Nat) (c : String) (now : Nat) :
    (storeMfaCode s uid c now).authTokens = s.authTokens := rfl

@[simp]
lemma sendEmail_authTokens (s : Db) (a b c : String) :
    (sendEmail s a b c).authTokens = s.authTokens := rfl

@[simp]
lemma sendMfaCode_authTokens (s : Db) (a b : String) :
    (sendMfaCode s a b).authTokens = s.authTokens := rfl

@[simp]
lemma markMfaCodeAsUsed_authTokens (s : Db) (c : String) :
    (markMfaCodeAsUsed s c).authTokens = s.authTokens := rfl

@[simp]
lemma storeTokens_authTokens (s : Db) (uid : Nat) (tk : Token × Token)
    (now : Nat) :
    (storeTokens s uid tk now).authTokens
      = s.authTokens ++ [⟨uid, tk.1, tk.2, now + 7 * 24 * 3600, false⟩] := rfl

@[simp]
lemma recordFailedAttempt_mfaCodes (s : Db) (uid now : Nat) :
    (recordFailedAttempt s uid now).mfaCodes = s.mfaCodes := rfl

@[simp]
lemma storeTokens_mfaCodes (s : Db) (uid : Nat) (tk : Token × Token)
    (now : Nat) : (storeTokens s uid tk now).mfaCodes = s.mfaCodes := rfl

@[simp]
lemma sendEmail_mfaCodes (s : Db) (a b c : String) :
    (sendEmail s a b c).mfaCodes = s.mfaCodes := rfl

@[simp]
lemma sendMfaCode_mfaCodes (s : Db) (a b : String) :
    (sendMfaCode s a b).mfaCodes = s.mfaCodes := rfl

@[simp]
lemma storeMfaCode_mfaCodes (s : Db) (uid : Nat) (c : String) (now : Nat) :
    (storeMfaCode s uid c now).mfaCodes
      = s.mfaCodes ++ [⟨uid, c, now + 10 * 60, false⟩] := rfl

@[simp]
lemma markMfaCodeAsUsed_mfaCodes (s : Db) (c : String) :
    (markMfaCodeAsUsed s c).mfaCodes
      = s.mfaCodes.map (fun r =>
          if r.code == c then { r with used := true } else r) := rfl

@[simp]
lemma generateTokens_fst (env : Env) (u : UserRow) (n : Nat) :
    (generateTokens env u n).1
      = ⟨.access u.id u.username u.email, env.jwtSecret, n, 3600⟩ := rfl

@[simp]
lemma generateTokens_snd (env : Env) (u : UserRow) (n : Nat) :
    (generateTokens env u n).2
      = ⟨.refreshClaims u.id, env.jwtRefreshSecret, n, 7 * 24 * 3600⟩ := rfl

/-! ## Revocation of refresh tokens (claim C1)

The invariant: every `auth_tokens` row whose refresh-token column holds
`t` is revoked.  It is established by a successful refresh presenting
`t` and preserved by every operation that runs after `t` was signed,
because rows inserted later hold refresh tokens signed later (`iat`
strictly larger than `t.iat`) and updates only ever set `revoked` to
`TRUE`. -/

lemma revokedAll_append {l l' : List AuthTokenRow} {t : Token}
    (h : revokedAll l t) (h' : revokedAll l' t) : revokedAll (l ++ l') t := by
  intro r hr
  rcases List.mem_append.mp hr with h1 | h1
  · exact h r h1
  · exact h' r h1

lemma revokedAll_singleton {r : AuthTokenRow} {t : Token}
    (h : r.refresh_token ≠ t) : revokedAll [r] t := by
  intro r' hr' ht
  rw [List.mem_singleton] at hr'
  subst hr'
  exact absurd ht h

/-- A refresh token signed at time `n` differs from any token signed
strictly earlier. -/
lemma fresh_refresh_ne {env : Env} {ud : UserRow} {n : Nat} {t : Token}
    (hiat : t.iat < n) : (generateTokens env ud n).2 ≠ t := by
  intro hEq
  have : ((generateTokens env ud n).2).iat = t.iat := by rw [hEq]
  simp only [generateTokens_snd] at this
  omega

lemma revokedAll_map_revokeByRefresh {l : List AuthTokenRow} {t : Token}
    (t' : Token) (h : revokedAll l t) :
    revokedAll (l.map (fun r =>
      if r.refresh_token == t' then { r with revoked := true } else r)) t := by
  intro r hr ht
  rcases List.mem_map.mp hr with ⟨r0, hr0, rfl⟩
  by_cases hc : r0.refresh_token = t'
  · simp [hc]
  · simp only [hc, beq_iff_eq, if_neg hc] at ht ⊢
    exact h r0 hr0 ht

lemma revokedAll_map_revokeByAccess {l : List AuthTokenRow} {t : Token}
    (t' : Token) (h : revokedAll l t) :
    revokedAll (l.map (fun r =>
      if r.token == t' then { r with revoked := true } else r)) t := by
  intro r hr ht
  rcases List.mem_map.mp hr with ⟨r0, hr0, rfl⟩
  by_cases hc : r0.token = t'
  · simp [hc]
  · simp only [hc, beq_iff_eq, if_neg hc] at ht ⊢
    exact h r0 hr0 ht

lemma loginHandler_revokedAll {env : Env} {s : Db} {t : Token}
    (u p : String) (mfaRand n : Nat) (hiat : t.iat < n)
    (h : revokedAll s.authTokens t) :
    revokedAll (loginHandler env s u p mfaRand n).1.authTokens t := by
  simp only [loginHandler]
  split
  · exact h
  split
  · exact h
  split
  · exact h
  split
  · exact h
  split
  · simpa using h
  split
  · exact h
  split
  · simpa using h
  · simp only [storeTokens_authTokens]
    exact revokedAll_append h
      (revokedAll_singleton (fresh_refresh_ne hiat))

lemma verifyMfaHandler_revokedAll {env : Env} {s : Db} {t : Token}
    (c : String) (n : Nat) (hiat : t.iat < n)
    (h : revokedAll s.authTokens t) :
    revokedAll (verifyMfaHandler env s c n).1.authTokens t := by
  simp only [verifyMfaHandler]
  split
  · exact h
  split
  · exact h
  split
  · exact h
  · simp only [markMfaCodeAsUsed_authTokens, storeTokens_authTokens]
    exact revokedAll_append h
      (revokedAll_singleton (fresh_refresh_ne hiat))

lemma refreshHandler_revokedAll {env : Env} {s : Db} {t : Token}
    (rt : Option Token) (n : Nat) (hiat : t.iat < n)
    (h : revokedAll s.authTokens t) :
    revokedAll (refreshHandler env s rt n).1.authTokens t := by
  simp only [refreshHandler]
  split
  · exact h
  split
  · exact h
  split
  · exact h
  · simp only [storeTokens_authTokens]
    exact revokedAll_append (revokedAll_map_revokeByRefresh _ h)
      (revokedAll_singleton (fresh_refresh_ne hiat))

lemma logoutHandler_revokedAll {s : Db} {t : Token} (b : Option Token)
    (h : revokedAll s.authTokens t) :
    revokedAll (logoutHandler s b).1.authTokens t := by
  simp only [logoutHandler]
  split
  · exact h
  · exact revokedAll_map_revokeByAccess _ h

lemma resetRequestHandler_revokedAll {env : Env} {s : Db} {t : Token}
    (e tk : String) (n : Nat) (h : revokedAll s.authTokens t) :
    revokedAll (resetRequestHandler env s e tk n).1.authTokens t := by
  simp only [resetRequestHandler]
  split
  · exact h
  split
  · exact h
  · simpa using h

lemma step_revokedAll {env : Env} {s : Db} {t : Token} (op : Op)
    (hiat : t.iat < op.time) (h : revokedAll s.authTokens t) :
    revokedAll (step env s op).1.authTokens t := by
  cases op with
  | login u p r n => exact loginHandler_revokedAll u p r n hiat h
  | verifyMfa c n => exact verifyMfaHandler_revokedAll c n hiat h
  | refresh rt n => exact refreshHandler_revokedAll rt n hiat h
  | logout b n => exact logoutHandler_revokedAll b h
  | resetRequest e tk n => exact resetRequestHandler_revokedAll e tk n h

lemma run_revokedAll (env : Env) {t : Token} (ops : List Op) (s : Db)
    (hops : ∀ op ∈ ops, t.iat < op.time) (h : revokedAll s.authTokens t) :
    revokedAll (run env s ops).authTokens t := by
  induction ops generalizing s with
  | nil => exact h
  | cons op ops ih =>
    exact ih (step env s op).1
      (fun o ho => hops o (List.mem_cons_of_mem _ ho))
      (step_revokedAll op (hops op (List.mem_cons_self _ _)) h)

/-- A successful refresh presenting `t` leaves every row holding `t`
revoked (the route's `UPDATE ... SET revoked = TRUE WHERE
refresh_token = $1`), and the freshly inserted pair holds a
later-signed refresh token. -/
lemma refresh_success_revokedAll {env : Env} {s : Db} {t : Token}
    {n : Nat} (hiat : t.iat < n)
    (hsucc : (refreshHandler env s (some t) n).2.status = 200) :
    revokedAll (refreshHandler env s (some t) n).1.authTokens t := by
  simp only [refreshHandler] at hsucc ⊢
  split at hsucc
  · simp at hsucc
  split at hsucc
  · simp at hsucc
  · simp only [storeTokens_authTokens]
    refine revokedAll_append ?_
      (revokedAll_singleton (fresh_refresh_ne hiat))
    intro r hr ht
    rcases List.mem_map.mp hr with ⟨r0, hr0, rfl⟩
    by_cases hc : r0.refresh_token = t
    · simp [hc]
    · simp only [hc, beq_iff_eq, if_neg hc] at ht ⊢
      exact absurd ht hc

/-- Against a store in which every row holding `t` is revoked, the
refresh route's lookup finds nothing and the route answers 401. -/
lemma refreshHandler_rejects {env : Env} {s : Db} {t : Token} (n : Nat)
    (h : revokedAll s.authTokens t) :
    refreshHandler env s (some t) n
      = (s, ⟨401, .err "Refresh token inválido ou expirado"⟩) := by
  have hf : s.authTokens.find? (fun r =>
      r.refresh_token == t && r.revoked == false
        && decide (n < r.expires_at)) = none := by
    rw [List.find?_eq_none]
    intro r hr
    by_cases he : r.refresh_token = t
    · have hrv := h r hr he
      simp [he, hrv]
    · simp [he]
  simp only [refreshHandler, hf]

/-- Claim C1: once a refresh token has been presented to a successful
`refresh` call (which revokes it before minting the new pair), any later
`refresh` call presenting that same token — after any sequence of
intervening operations — returns the 401 invalid-or-expired
AuthenticationError.  "Later" is the temporal hypotheses: the first
refresh and every intervening operation run strictly after the presented
token was signed (`t.iat`), which is what makes freshly minted refresh
tokens distinct from `t`. -/
theorem refresh_replay_rejected (env : Env) (s : Db) (t : Token)
    (n0 : Nat) (ops : List Op) (n : Nat)
    (hiat : t.iat < n0)
    (hops : ∀ op ∈ ops, t.iat < op.time)
    (hsucc : (step env s (.refresh (some t) n0)).2.status = 200) :
    (step env (run env (step env s (.refresh (some t) n0)).1 ops)
      (.refresh (some t) n)).2
      = ⟨401, .err "Refresh token inválido ou expirado"⟩ := by
  have h1 : revokedAll (step env s (.refresh (some t) n0)).1.authTokens t :=
    refresh_success_revokedAll hiat hsucc
  have h2 := run_revokedAll env ops _ hops h1
  show (refreshHandler env _ (some t) n).2 = _
  rw [refreshHandler_rejects n h2]

theorem refresh_replay_rejected_witness :
    (tAlice.iat < 10
      ∧ (∀ op ∈ ([] : List Op), tAlice.iat < op.time)
      ∧ (step sampleEnv dbAlice (.refresh (some tAlice) 10)).2.status = 200)
    ∧ (step sampleEnv
        (run sampleEnv (step sampleEnv dbAlice (.refresh (some tAlice) 10)).1 [])
        (.refresh (some tAlice) 20)).2
      = ⟨401, .err "Refresh token inválido ou expirado"⟩ :=
  ⟨⟨by decide, by simp, by decide⟩,
   refresh_replay_rejected sampleEnv dbAlice tAlice 10 [] 20
     (by decide) (by simp) (by decide)⟩

/-! ## Consumption of MFA codes (claim C2)

The invariant: every `mfa_codes` row whose code column holds `c` is
marked used.  A successful `verifyMfa` presenting `c` establishes it
(`UPDATE mfa_codes SET used = TRUE WHERE code = $1`).  It is preserved
by every operation except a `login` whose `Math.random()` draw
re-issues the very same 6-digit value: `generateMfaCode` guarantees no
freshness, so such a login inserts a new unused row with code `c` and
the value validates again — the collision hazard the repository's
design notes flag. -/

lemma usedAll_append {l l' : List MfaCodeRow} {c : String}
    (h : usedAll l c) (h' : usedAll l' c) : usedAll (l ++ l') c := by
  intro r hr
  rcases List.mem_append.mp hr with h1 | h1
  · exact h r h1
  · exact h' r h1

lemma usedAll_singleton {r : MfaCodeRow} {c : String} (h : r.code ≠ c) :
    usedAll [r] c := by
  intro r' hr' hc
  rw [List.mem_singleton] at hr'
  subst hr'
  exact absurd hc h

lemma usedAll_map_markUsed {l : List MfaCodeRow} {c : String}
    (c' : String) (h : usedAll l c) :
    usedAll (l.map (fun r =>
      if r.code == c' then { r with used := true } else r)) c := by
  intro r hr hc
  rcases List.mem_map.mp hr with ⟨r0, hr0, rfl⟩
  by_cases h0 : r0.code = c'
  · simp [h0]
  · simp only [h0, beq_iff_eq, if_neg h0] at hc ⊢
    exact h r0 hr0 hc

lemma loginHandler_usedAll {env : Env} {s : Db} {c : String}
    (u p : String) (mfaRand n : Nat)
    (hfresh : generateMfaCode mfaRand ≠ c) (h : usedAll s.mfaCodes c) :
    usedAll (loginHandler env s u p mfaRand n).1.mfaCodes c := by
  simp only [loginHandler]
  split
  · exact h
  split
  · exact h
  split
  · exact h
  split
  · exact h
  split
  · simpa using h
  split
  · exact h
  split
  · simp only [sendMfaCode_mfaCodes, storeMfaCode_mfaCodes]
    exact usedAll_append h (usedAll_singleton hfresh)
  · simpa using h

lemma verifyMfaHandler_usedAll {env : Env} {s : Db} {c : String}
    (c' : String) (n : Nat) (h : usedAll s.mfaCodes c) :
    usedAll (verifyMfaHandler env s c' n).1.mfaCodes c := by
  simp only [verifyMfaHandler]
  split
  · exact h
  split
  · exact h
  split
  · exact h
  · simp only [markMfaCodeAsUsed_mfaCodes, storeTokens_mfaCodes]
    exact usedAll_map_markUsed _ h

lemma refreshHandler_usedAll {env : Env} {s : Db} {c : String}
    (rt : Option Token) (n : Nat) (h : usedAll s.mfaCodes c) :
    usedAll (refreshHandler env s rt n).1.mfaCodes c := by
  simp only [refreshHandler]
  split
  · exact h
  split
  · exact h
  split
  · exact h
  · simpa using h

lemma logoutHandler_usedAll {s : Db} {c : String} (b : Option Token)
    (h : usedAll s.mfaCodes c) :
    usedAll (logoutHandler s b).1.mfaCodes c := by
  simp only [logoutHandler]
  split
  · exact h
  · simpa using h

lemma resetRequestHandler_usedAll {env : Env} {s : Db} {c : String}
    (e tk : String) (n : Nat) (h : usedAll s.mfaCodes c) :
    usedAll (resetRequestHandler env s e tk n).1.mfaCodes c := by
  simp only [resetRequestHandler]
  split
  · exact h
  split
  · exact h
  · simpa using h

lemma step_usedAll {env : Env} {s : Db} {c : String} (op : Op)
    (hop : op.mintsCode c = false) (h : usedAll s.mfaCodes c) :
    usedAll (step env s op).1.mfaCodes c := by
  cases op with
  | login u p r n =>
    have hr : generateMfaCode r ≠ c := by
      simpa [Op.mintsCode] using hop
    exact loginHandler_usedAll u p r n hr h
  | verifyMfa c' n => exact verifyMfaHandler_usedAll c' n h
  | refresh rt n => exact refreshHandler_usedAll rt n h
  | logout b n => exact logoutHandler_usedAll b h
  | resetRequest e tk n => exact resetRequestHandler_usedAll e tk n h

lemma run_usedAll (env : Env) {c : String} (ops : List Op) (s : Db)
    (hops : ∀ op ∈ ops, op.mintsCode c = false)
    (h : usedAll s.mfaCodes c) :
    usedAll (run env s ops).mfaCodes c := by
  induction ops generalizing s with
  | nil => exact h
  | cons op ops ih =>
    exact ih (step env s op).1
      (fun o ho => hops o (List.mem_cons_of_mem _ ho))
      (step_usedAll op (hops op (List.mem_cons_self _ _)) h)

/-- A successful `verifyMfa` was given a non-empty code
(`if (!code)` answers 400 otherwise). -/
lemma verifyMfa_success_code_ne {env : Env} {s : Db} {c : String}
    {n : Nat} (hsucc : (verifyMfaHandler env s c n).2.status = 200) :
    c ≠ "" := by
  intro he
  subst he
  simp [verifyMfaHandler] at hsucc

/-- `markMfaCodeAsUsed` leaves every row holding the marked code
used. -/
lemma usedAll_markMfaCodeAsUsed (s : Db) (c : String) :
    usedAll (markMfaCodeAsUsed s c).mfaCodes c := by
  simp only [markMfaCodeAsUsed_mfaCodes]
  intro r hr hc
  rcases List.mem_map.mp hr with ⟨r0, hr0, rfl⟩
  by_cases h0 : r0.code = c
  · simp [h0]
  · simp only [h0, beq_iff_eq, if_neg h0] at hc ⊢
    exact absurd hc h0

/-- A successful `verifyMfa` presenting `c` marks every row holding `c`
used. -/
lemma verifyMfa_success_usedAll {env : Env} {s : Db} {c : String}
    {n : Nat} (hsucc : (verifyMfaHandler env s c n).2.status = 200) :
    usedAll (verifyMfaHandler env s c n).1.mfaCodes c := by
  simp only [verifyMfaHandler] at hsucc ⊢
  by_cases hc0 : (c == "") = true
  · rw [if_pos hc0] at hsucc
    simp at hsucc
  · rw [if_neg hc0] at hsucc ⊢
    split at hsucc
    · simp at hsucc
    split at hsucc
    · simp at hsucc
    · exact usedAll_markMfaCodeAsUsed _ _

/-- Against a store in which every row holding `c` is used, the MFA
lookup finds nothing and the route answers 401. -/
lemma verifyMfaHandler_rejects {env : Env} {s : Db} {c : String}
    (n : Nat) (hcne : c ≠ "") (h : usedAll s.mfaCodes c) :
    verifyMfaHandler env s c n
      = (s, ⟨401, .err "Código inválido ou expirado"⟩) := by
  have hf : s.mfaCodes.find? (fun r =>
      r.code == c && r.used == false && decide (n < r.expires_at))
      = none := by
    rw [List.find?_eq_none]
    intro r hr
    by_cases he : r.code = c
    · have hu := h r hr he
      simp [he, hu]
    · simp [he]
  have hv : verifyMfaCode s c n = none := by
    unfold verifyMfaCode
    rw [hf]
    rfl
  simp [verifyMfaHandler, hcne, hv]

/-- Claim C2, counterexample to the claim as stated: bob's code
"123456" is consumed by a successful `verifyMfa` (200), but the claim's
"any later `verifyMfa` call presenting the same code returns the 401
error" fails: a later `login` by bob draws `Math.random()` so that
`generateMfaCode` re-issues the same value "123456"
(`100000 + 23456 % 900000`), inserting a fresh unused row, and replaying
`verifyMfa "123456"` then answers 200 with new tokens instead of 401 —
the code value is not permanently unusable. -/
theorem mfa_code_reuse_counterexample :
    (step sampleEnv dbBob (.verifyMfa "123456" 10)).2.status = 200
    ∧ (step sampleEnv dbBobAfterVerify
        (.login "bob" "pw2" 23456 20)).2.status = 200
    ∧ (step sampleEnv dbBobAfterLogin (.verifyMfa "123456" 30)).2.status = 200
    ∧ (step sampleEnv dbBobAfterLogin (.verifyMfa "123456" 30)).2
        ≠ ⟨401, .err "Código inválido ou expirado"⟩ := by
  refine ⟨by decide, by decide, by decide, by decide⟩

/-- Claim C2 (amended): once a code `c` has been consumed by a
successful `verifyMfa`, every row holding `c` is marked used, and any
later `verifyMfa` presenting `c` returns the 401 invalid-or-expired
AuthenticationError — provided no intervening `login` has re-issued a
fresh MFA code with the same value (`Op.mintsCode`); only such a
re-issuance can ever make the value usable again. -/
theorem mfa_code_replay_rejected (env : Env) (s : Db) (c : String)
    (n0 : Nat) (ops : List Op) (n : Nat)
    (hsucc : (step env s (.verifyMfa c n0)).2.status = 200)
    (hops : ∀ op ∈ ops, op.mintsCode c = false) :
    (step env (run env (step env s (.verifyMfa c n0)).1 ops)
      (.verifyMfa c n)).2
      = ⟨401, .err "Código inválido ou expirado"⟩ := by
  have hcne : c ≠ "" := verifyMfa_success_code_ne hsucc
  have h1 : usedAll (step env s (.verifyMfa c n0)).1.mfaCodes c :=
    verifyMfa_success_usedAll hsucc
  have h2 := run_usedAll env ops _ hops h1
  show (verifyMfaHandler env _ c n).2 = _
  rw [verifyMfaHandler_rejects n hcne h2]

theorem mfa_code_replay_rejected_witness :
    ((step sampleEnv dbBob (.verifyMfa "123456" 10)).2.status = 200
      ∧ (∀ op ∈ ([] : List Op), Op.mintsCode op "123456" = false))
    ∧ (step sampleEnv
        (run sampleEnv (step sampleEnv dbBob (.verifyMfa "123456" 10)).1 [])
        (.verifyMfa "123456" 30)).2
      = ⟨401, .err "Código inválido ou expirado"⟩ :=
  ⟨⟨by decide, by simp⟩,
   mfa_code_replay_rejected sampleEnv dbBob "123456" 10 [] 30
     (by decide) (by simp)⟩

/-- Claim C3: with at least 5 failed attempts recorded for the user in
the trailing 30-minute window, a further `login` with the correct
password returns the distinct LockoutError instead of tokens; with
fewer than 5 failed attempts inside the window the same correct-password
`login` answers 200 — no explicit unlock action exists, the window
simply ages out. -/
theorem lockout_after_five_failures (env : Env) (s : Db)
    (username password : String) (mfaRand now : Nat) (ud : UserRow)
    (hu : jsTrim username ≠ "") (hp : jsTrim password ≠ "")
    (hfind : findUserByUsernameOrEmail s (jsTrim username) = some ud)
    (hact : ud.is_active = true)
    (hpw : bcryptCompare (jsTrim password) ud.password_hash = true) :
    (5 ≤ failedAttemptsInWindow s ud.id now →
      (loginHandler env s username password mfaRand now).2
        = ⟨401, .err "Conta bloqueada. Tente novamente em 30 minutos."⟩)
    ∧ (failedAttemptsInWindow s ud.id now < 5 →
      (loginHandler env s username password mfaRand now).2.status = 200) := by
  constructor
  · intro hb
    have hblocked : checkUserBlocked s ud.id now = true := by
      simp [checkUserBlocked, hb]
    simp [loginHandler, hu, hp, hfind, hact, hpw, hblocked]
  · intro hb
    have hblocked : checkUserBlocked s ud.id now = false := by
      simp only [checkUserBlocked, decide_eq_false_iff_not]
      omega
    by_cases hm : checkMfaEnabled s ud.id
    · simp [loginHandler, hu, hp, hfind, hact, hpw, hblocked, hm]
    · simp [loginHandler, hu, hp, hfind, hact, hpw, hblocked, hm]

theorem lockout_after_five_failures_witness :
    (jsTrim "alice" ≠ "" ∧ jsTrim "pw1" ≠ ""
      ∧ findUserByUsernameOrEmail dbAliceBlocked (jsTrim "alice") = some alice
      ∧ alice.is_active = true
      ∧ bcryptCompare (jsTrim "pw1") alice.password_hash = true
      ∧ 5 ≤ failedAttemptsInWindow dbAliceBlocked alice.id 2000
      ∧ failedAttemptsInWindow dbAlice alice.id 2000 < 5)
    ∧ (loginHandler sampleEnv dbAliceBlocked "alice" "pw1" 0 2000).2
        = ⟨401, .err "Conta bloqueada. Tente novamente em 30 minutos."⟩
    ∧ (loginHandler sampleEnv dbAlice "alice" "pw1" 0 2000).2.status = 200 :=
  ⟨⟨by decide, by decide, by decide, by decide, by decide, by decide,
     by decide⟩,
   (lockout_after_five_failures sampleEnv dbAliceBlocked "alice" "pw1" 0 2000
      alice (by decide) (by decide) (by decide) (by decide) (by decide)).1
     (by decide),
   (lockout_after_five_failures sampleEnv dbAlice "alice" "pw1" 0 2000
      alice (by decide) (by decide) (by decide) (by decide) (by decide)).2
     (by decide)⟩

/-- Claim C4: every `logout` request carrying a bearer access token is
answered 200 with the success ack, whatever the state of the store —
in particular when the token matches no row at all (the `UPDATE`
revokes nothing, i.e. server-side revocation achieves nothing) the
caller is still told the logout succeeded. -/
theorem logout_always_acks (s : Db) (tok : Token) :
    (logoutHandler s (some tok)).2
      = ⟨200, .ok "Logout realizado com sucesso"⟩ := rfl

/-- Claim C5: a `login` with a username (or e-mail) matching no user
and a `login` for a present, active user with a non-matching password
return the same 401 status and the same "Usuário ou senha inválidos"
payload, revealing nothing about the user's existence. -/
theorem login_enumeration_resistant (env : Env) (s : Db)
    (u1 p1 u2 p2 : String) (mr1 mr2 n1 n2 : Nat) (ud : UserRow)
    (h1 : jsTrim u1 ≠ "") (h2 : jsTrim p1 ≠ "")
    (h3 : jsTrim u2 ≠ "") (h4 : jsTrim p2 ≠ "")
    (hnone : findUserByUsernameOrEmail s (jsTrim u1) = none)
    (hsome : findUserByUsernameOrEmail s (jsTrim u2) = some ud)
    (hact : ud.is_active = true)
    (hpw : bcryptCompare (jsTrim p2) ud.password_hash = false) :
    (loginHandler env s u1 p1 mr1 n1).2 = (loginHandler env s u2 p2 mr2 n2).2
    ∧ (loginHandler env s u1 p1 mr1 n1).2
        = ⟨401, .err "Usuário ou senha inválidos"⟩ := by
  have e1 : (loginHandler env s u1 p1 mr1 n1).2
      = ⟨401, .err "Usuário ou senha inválidos"⟩ := by
    simp [loginHandler, h1, h2, hnone]
  have e2 : (loginHandler env s u2 p2 mr2 n2).2
      = ⟨401, .err "Usuário ou senha inválidos"⟩ := by
    simp [loginHandler, h3, h4, hsome, hact, hpw]
  exact ⟨e1.trans e2.symm, e1⟩

theorem login_enumeration_resistant_witness :
    (jsTrim "mallory" ≠ "" ∧ jsTrim "x" ≠ ""
      ∧ jsTrim "alice" ≠ "" ∧ jsTrim "bad" ≠ ""
      ∧ findUserByUsernameOrEmail dbAlice (jsTrim "mallory") = none
      ∧ findUserByUsernameOrEmail dbAlice (jsTrim "alice") = some alice
      ∧ alice.is_active = true
      ∧ bcryptCompare (jsTrim "bad") alice.password_hash = false)
    ∧ (loginHandler sampleEnv dbAlice "mallory" "x" 0 5).2
        = (loginHandler sampleEnv dbAlice "alice" "bad" 0 5).2
    ∧ (loginHandler sampleEnv dbAlice "mallory" "x" 0 5).2
        = ⟨401, .err "Usuário ou senha inválidos"⟩ :=
  ⟨⟨by decide, by decide, by decide, by decide, by decide, by decide,
     by decide, by decide⟩,
   login_enumeration_resistant sampleEnv dbAlice "mallory" "x" "alice" "bad"
     0 0 5 5 alice (by decide) (by decide) (by decide) (by decide)
     (by decide) (by decide) (by decide) (by decide)⟩

/-- Claim C6: for a syntactically valid e-mail, `requestPasswordReset`
answers the same generic 200 payload whether or not the e-mail belongs
to a stored user; when it does not, the store is untouched, and when it
does, exactly one reset-token row and one reset e-mail are appended. -/
theorem reset_request_uniform (env : Env) (s1 s2 : Db)
    (e tok1 tok2 : String) (n1 n2 : Nat) (ud : UserRow)
    (hv : isEmail e = true)
    (hnone : s1.users.find? (fun u => u.email == e) = none)
    (hsome : s2.users.find? (fun u => u.email == e) = some ud) :
    (resetRequestHandler env s1 e tok1 n1).2
      = (resetRequestHandler env s2 e tok2 n2).2
    ∧ (resetRequestHandler env s1 e tok1 n1).2.status = 200
    ∧ (resetRequestHandler env s1 e tok1 n1).1 = s1
    ∧ (resetRequestHandler env s2 e tok2 n2).1
        = { s2 with
            resetTokens := s2.resetTokens ++ [⟨ud.id, tok2, n2 + 3600⟩],
            sentEmails := s2.sentEmails
              ++ [⟨e, "Redefinição de senha", resetEmailBody env tok2⟩] } := by
  have r1 : resetRequestHandler env s1 e tok1 n1
      = (s1, ⟨200, .ok "Se o e-mail estiver cadastrado, você receberá instruções para redefinir sua senha."⟩) := by
    simp [resetRequestHandler, hv, hnone]
  have r2 : resetRequestHandler env s2 e tok2 n2
      = ({ s2 with
            resetTokens := s2.resetTokens ++ [⟨ud.id, tok2, n2 + 3600⟩],
            sentEmails := s2.sentEmails
              ++ [⟨e, "Redefinição de senha", resetEmailBody env tok2⟩] },
         ⟨200, .ok "Se o e-mail estiver cadastrado, você receberá instruções para redefinir sua senha."⟩) := by
    obtain ⟨us, atk, la, mc, rt, se⟩ := s2
    simp [resetRequestHandler, hv, hsome, sendEmail]
  rw [r1, r2]
  exact ⟨rfl, rfl, rfl, rfl⟩

theorem reset_request_uniform_witness :
    (isEmail "alice@x.com" = true
      ∧ dbBob.users.find? (fun u => u.email == "alice@x.com") = none
      ∧ dbAlice.users.find? (fun u => u.email == "alice@x.com") = some alice)
    ∧ (resetRequestHandler sampleEnv dbBob "alice@x.com" "uuid-1" 7).2
        = (resetRequestHandler sampleEnv dbAlice "alice@x.com" "uuid-2" 9).2
    ∧ (resetRequestHandler sampleEnv dbBob "alice@x.com" "uuid-1" 7).2.status
        = 200
    ∧ (resetRequestHandler sampleEnv dbBob "alice@x.com" "uuid-1" 7).1 = dbBob
    ∧ (resetRequestHandler sampleEnv dbAlice "alice@x.com" "uuid-2" 9).1
        = { dbAlice with
            resetTokens := dbAlice.resetTokens ++ [⟨alice.id, "uuid-2", 9 + 3600⟩],
            sentEmails := dbAlice.sentEmails
              ++ [⟨"alice@x.com", "Redefinição de senha",
                   resetEmailBody sampleEnv "uuid-2"⟩] } :=
  ⟨⟨by decide, by decide, by decide⟩,
   reset_request_uniform sampleEnv dbBob dbAlice "alice@x.com" "uuid-1"
     "uuid-2" 7 9 alice (by decide) (by decide) (by decide)⟩

/-- Claim C7: `generateTokens` mints an access token whose claims are
exactly the user's id, username and e-mail with a 1-hour expiry, signed
with the access secret, and a refresh token whose claims are exactly
the user's id with a 7-day expiry, signed with the refresh secret; in
any environment configuring the two secrets differently, the two
tokens are signed with distinct keys. -/
theorem token_issuer_claims_and_secrets (env : Env) (u : UserRow)
    (now : Nat) (h : env.jwtSecret ≠ env.jwtRefreshSecret) :
    (generateTokens env u now).1.payload = .access u.id u.username u.email
    ∧ (generateTokens env u now).1.expiresInSecs = 3600
    ∧ (generateTokens env u now).1.secret = env.jwtSecret
    ∧ (generateTokens env u now).2.payload = .refreshClaims u.id
    ∧ (generateTokens env u now).2.expiresInSecs = 7 * 24 * 3600
    ∧ (generateTokens env u now).2.secret = env.jwtRefreshSecret
    ∧ (generateTokens env u now).1.secret
        ≠ (generateTokens env u now).2.secret :=
  ⟨rfl, rfl, rfl, rfl, rfl, rfl, h⟩

theorem token_issuer_claims_and_secrets_witness :
    (sampleEnv.jwtSecret ≠ sampleEnv.jwtRefreshSecret)
    ∧ ((generateTokens sampleEnv alice 0).1.payload
          = .access alice.id alice.username alice.email
      ∧ (generateTokens sampleEnv alice 0).1.expiresInSecs = 3600
      ∧ (generateTokens sampleEnv alice 0).1.secret = sampleEnv.jwtSecret
      ∧ (generateTokens sampleEnv alice 0).2.payload = .refreshClaims alice.id
      ∧ (generateTokens sampleEnv alice 0).2.expiresInSecs = 7 * 24 * 3600
      ∧ (generateTokens sampleEnv alice 0).2.secret
          = sampleEnv.jwtRefreshSecret
      ∧ (generateTokens sampleEnv alice 0).1.secret
          ≠ (generateTokens sampleEnv alice 0).2.secret) :=
  ⟨by decide,
   token_issuer_claims_and_secrets sampleEnv alice 0 (by decide)⟩

/-- Claim C8: for a user who is already locked out, a `login` with a
wrong password still returns the generic invalid-credentials error —
not the LockoutError — and appends one more failed attempt to the
ledger, because the route checks the password before the lockout. -/
theorem locked_user_wrong_password_generic (env : Env) (s : Db)
    (username password : String) (mfaRand now : Nat) (ud : UserRow)
    (hu : jsTrim username ≠ "") (hp : jsTrim password ≠ "")
    (hfind : findUserByUsernameOrEmail s (jsTrim username) = some ud)
    (hact : ud.is_active = true)
    (hpw : bcryptCompare (jsTrim password) ud.password_hash = false)
    (_hblocked : 5 ≤ failedAttemptsInWindow s ud.id now) :
    (loginHandler env s username password mfaRand now).2
      = ⟨401, .err "Usuário ou senha inválidos"⟩
    ∧ (loginHandler env s username password mfaRand now).1
      = { s with loginAttempts := s.loginAttempts ++ [⟨ud.id, false, now⟩] } := by
  constructor
  · simp [loginHandler, hu, hp, hfind, hact, hpw]
  · simp [loginHandler, hu, hp, hfind, hact, hpw, recordFailedAttempt]

theorem locked_user_wrong_password_generic_witness :
    (jsTrim "alice" ≠ "" ∧ jsTrim "bad" ≠ ""
      ∧ findUserByUsernameOrEmail dbAliceBlocked (jsTrim "alice") = some alice
      ∧ alice.is_active = true
      ∧ bcryptCompare (jsTrim "bad") alice.password_hash = false
      ∧ 5 ≤ failedAttemptsInWindow dbAliceBlocked alice.id 2000)
    ∧ (loginHandler sampleEnv dbAliceBlocked "alice" "bad" 0 2000).2
        = ⟨401, .err "Usuário ou senha inválidos"⟩
    ∧ (loginHandler sampleEnv dbAliceBlocked "alice" "bad" 0 2000).1
        = { dbAliceBlocked with loginAttempts :=
              dbAliceBlocked.loginAttempts ++ [⟨alice.id, false, 2000⟩] } :=
  ⟨⟨by decide, by decide, by decide, by decide, by decide, by decide⟩,
   locked_user_wrong_password_generic sampleEnv dbAliceBlocked "alice" "bad"
     0 2000 alice (by decide) (by decide) (by decide) (by decide)
     (by decide) (by decide)⟩

/-- Claim C9: every `verifyMfa` call that answers an error (400 missing
code, 401 invalid-or-expired, 404 user not found) leaves the store —
in particular every MFA code's used flag — unchanged; codes are marked
used only on the success path. -/
theorem verify_mfa_error_preserves_codes (env : Env) (s : Db) (c : String)
    (now : Nat) (h : (verifyMfaHandler env s c now).2.status ≠ 200) :
    (verifyMfaHandler env s c now).1 = s := by
  simp only [verifyMfaHandler] at h ⊢
  by_cases hc0 : (c == "") = true
  · rw [if_pos hc0]
  · rw [if_neg hc0] at h ⊢
    split at h
    · rfl
    split at h
    · rfl
    · simp at h

theorem verify_mfa_error_preserves_codes_witness :
    ((verifyMfaHandler sampleEnv dbAlice "999999" 0).2.status ≠ 200)
    ∧ (verifyMfaHandler sampleEnv dbAlice "999999" 0).1 = dbAlice :=
  ⟨by decide,
   verify_mfa_error_preserves_codes sampleEnv dbAlice "999999" 0 (by decide)⟩

/-- Claim C10: marking an MFA code used is keyed by code value alone:
a successful `verifyMfa` maps the whole `mfa_codes` table, setting the
used flag on exactly the rows whose code equals the presented value —
other users' rows with the same value included — and leaving every
other row and every other field unchanged. -/
theorem mark_mfa_code_keyed_by_value (env : Env) (s : Db) (c : String)
    (now : Nat) (h : (verifyMfaHandler env s c now).2.status = 200) :
    (verifyMfaHandler env s c now).1.mfaCodes
      = s.mfaCodes.map (fun r =>
          if r.code == c then { r with used := true } else r) := by
  simp only [verifyMfaHandler] at h ⊢
  by_cases hc0 : (c == "") = true
  · rw [if_pos hc0] at h
    simp at h
  · rw [if_neg hc0] at h ⊢
    split at h
    · simp at h
    split at h
    · simp at h
    · rfl

theorem mark_mfa_code_keyed_by_value_witness :
    ((verifyMfaHandler sampleEnv dbSharedCodes "111111" 10).2.status = 200)
    ∧ (verifyMfaHandler sampleEnv dbSharedCodes "111111" 10).1.mfaCodes
        = dbSharedCodes.mfaCodes.map (fun r =>
            if r.code == "111111" then { r with used := true } else r) :=
  ⟨by decide,
   mark_mfa_code_keyed_by_value sampleEnv dbSharedCodes "111111" 10
     (by decide)⟩

end AuthSystem
